import Mathlib

/-!
Verification development for the delegated-credential lifecycle of the
Capital-Planning assistant.

The embedding covers, on the issuer side (src/oidc_server):
the deterministic JWT minting of jwt_utils.py (RS256 with PKCS#1 v1.5 is a
deterministic signature scheme and the signing key is fixed for the process
lifetime, so a token string is an injective function of its payload; we
therefore model a token AS its payload), the in-memory stores auth_codes and
refresh_tokens_store of main.py, and the two grant handlers
handle_authorization_code_grant and handle_refresh_token_grant.

On the broker side (src/mcp_server): TokenSession and the TokenManager
operations create_session, ensure_valid_token, check_authorization,
_refresh_tokens and refresh_all_sessions of token_manager.py, and the
authorization prelude of CapitalPlanningAPIClient._make_request
(api_client.py).  The HTTP exchange performed by _refresh_tokens is made
explicit as an input value (status + parsed json body, or a network error);
everything else is translated directly from the source.  Time is modelled as
seconds (Nat), matching the integer second granularity of the JWT iat/exp
claims.
-/

/-- ACCESS_TOKEN_LIFETIME from src/oidc_server/config.py (seconds). -/
def ACCESS_TOKEN_LIFETIME : Nat := 10

/-- REFRESH_TOKEN_LIFETIME from src/oidc_server/config.py (seconds). -/
def REFRESH_TOKEN_LIFETIME : Nat := 30

/-- ROTATE_REFRESH_TOKENS from src/oidc_server/config.py. -/
def ROTATE_REFRESH_TOKENS : Bool := true

/-- The leeway argument of jwt.decode in JWTManager.verify_token (seconds). -/
def JWT_LEEWAY : Nat := 10

/-- A JWT minted by JWTManager (src/oidc_server/jwt_utils.py).  The iss, aud
and joined scope-string claims are process constants or derived from scopes
and are omitted; sub, scopes, iat, exp and token_type are the claims the
handlers inspect.  Since RS256 signing with the fixed process key is
deterministic, two mints with equal payloads yield the identical token
string; the payload is therefore a faithful stand-in for the token string. -/
structure JWTPayload where
  sub : String
  scopes : List String
  iat : Nat
  exp : Nat
  token_type : Option String
deriving DecidableEq, Repr

/-- JWTManager.create_access_token: iat = now, exp = now + ACCESS_TOKEN_LIFETIME,
no token_type claim. -/
def create_access_token (sub : String) (scopes : List String) (now : Nat) : JWTPayload :=
  { sub := sub, scopes := scopes, iat := now,
    exp := now + ACCESS_TOKEN_LIFETIME, token_type := none }

/-- JWTManager.create_refresh_token: iat = now, exp = now + REFRESH_TOKEN_LIFETIME,
token_type = "refresh". -/
def create_refresh_token (sub : String) (scopes : List String) (now : Nat) : JWTPayload :=
  { sub := sub, scopes := scopes, iat := now,
    exp := now + REFRESH_TOKEN_LIFETIME, token_type := some ("refresh") }

/-- JWTManager.verify_token: jwt.decode with leeway 10 rejects a token exactly
when exp < now - leeway, i.e. exp + leeway < now; signature, issuer and
audience always verify for tokens minted by this manager (the only tokens the
model represents). -/
def verify_token (tok : JWTPayload) (now : Nat) : Option JWTPayload :=
  if tok.exp + JWT_LEEWAY < now then none else some tok

/-- One value of refresh_tokens_store in src/oidc_server/main.py:
token -> { id, sub, scopes, expires, revoked, parent }. -/
structure RefreshRecord where
  id : String
  sub : String
  scopes : List String
  expires : Nat
  revoked : Bool
  parent : Option String
deriving DecidableEq, Repr

/-- One value of auth_codes in src/oidc_server/main.py:
code -> { sub, scopes, expires, used }. -/
structure CodeRecord where
  sub : String
  scopes : List String
  expires : Nat
  used : Bool
deriving DecidableEq, Repr

/-- Python dict lookup d.get(k) / k in d, on an insertion-ordered
association list. -/
def dictGet {α β : Type} [DecidableEq α] : List (α × β) → α → Option β
  | [], _ => none
  | (k, v) :: rest, a => if a = k then some v else dictGet rest a

/-- Python dict assignment d[k] = v: replaces the value in place if the key
is present (keeping its position), appends otherwise. -/
def dictSet {α β : Type} [DecidableEq α] : List (α × β) → α → β → List (α × β)
  | [], a, b => [(a, b)]
  | (k, v) :: rest, a, b =>
    if a = k then (a, b) :: rest else (k, v) :: dictSet rest a b

/-- The mutable module state of the issuer (src/oidc_server/main.py lines 32-33). -/
structure OIDCState where
  auth_codes : List (String × CodeRecord)
  refresh_tokens_store : List (JWTPayload × RefreshRecord)
deriving DecidableEq, Repr

/-- A fastapi HTTPException raised by a handler: status code and detail. -/
structure HTTPError where
  status : Nat
  detail : String
deriving DecidableEq, Repr

/-- The body of oidc_server.models.TokenResponse: its only fields are
access_token, token_type, expires_in, refresh_token and scope (there is no
refresh_expires_in field). -/
structure TokenResponse where
  access_token : JWTPayload
  token_type : String
  expires_in : Nat
  refresh_token : Option JWTPayload
  scope : String
deriving DecidableEq, Repr

/-- handle_authorization_code_grant (src/oidc_server/main.py lines 119-160).
The fresh random value secrets.token_urlsafe(32) drawn for the new refresh
record id is passed in as refresh_token_id; now is the current time. -/
def handle_authorization_code_grant (st : OIDCState) (code : Option String)
    (now : Nat) (refresh_token_id : String) :
    Except HTTPError (TokenResponse × OIDCState) :=
  match code with
  | none => .error ⟨400, "Invalid authorization code"⟩
  | some c =>
    match dictGet st.auth_codes c with
    | none => .error ⟨400, "Invalid authorization code"⟩
    | some cd =>
      if cd.used then .error ⟨400, "Authorization code already used"⟩
      else if cd.expires < now then .error ⟨400, "Authorization code expired"⟩
      else
        let st1 : OIDCState :=
          { st with auth_codes := dictSet st.auth_codes c { cd with used := true } }
        let access := create_access_token cd.sub cd.scopes now
        let refresh := create_refresh_token cd.sub cd.scopes now
        let rcd : RefreshRecord :=
          ⟨refresh_token_id, cd.sub, cd.scopes,
            now + REFRESH_TOKEN_LIFETIME, false, none⟩
        let st2 : OIDCState :=
          { st1 with refresh_tokens_store := dictSet st1.refresh_tokens_store refresh rcd }
        .ok (⟨access, "Bearer", ACCESS_TOKEN_LIFETIME, some refresh,
              String.intercalate (" ") cd.scopes⟩, st2)

/-- handle_refresh_token_grant (src/oidc_server/main.py lines 163-232).
tok is the presented refresh token (none when the form field is missing);
new_token_id is the fresh random id drawn for the replacement record; rotate
is the ROTATE_REFRESH_TOKENS configuration value. -/
def handle_refresh_token_grant (st : OIDCState) (tok : Option JWTPayload)
    (now : Nat) (new_token_id : String) (rotate : Bool) :
    Except HTTPError (TokenResponse × OIDCState) :=
  match tok with
  | none => .error ⟨400, "Missing refresh_token"⟩
  | some t =>
    match verify_token t now with
    | none => .error ⟨401, "Invalid refresh token"⟩
    | some payload =>
      if payload.token_type ≠ some ("refresh") then
        .error ⟨401, "Invalid refresh token"⟩
      else
        match dictGet st.refresh_tokens_store t with
        | none => .error ⟨401, "Unknown refresh token"⟩
        | some td =>
          if td.revoked then .error ⟨401, "Refresh token has been revoked"⟩
          else if td.expires < now then .error ⟨401, "Refresh token expired"⟩
          else
            let st1 : OIDCState :=
              { st with refresh_tokens_store :=
                  dictSet st.refresh_tokens_store t { td with revoked := true } }
            let access := create_access_token td.sub td.scopes now
            if rotate then
              let new_refresh := create_refresh_token td.sub td.scopes now
              let rcd : RefreshRecord :=
                ⟨new_token_id, td.sub, td.scopes,
                  now + REFRESH_TOKEN_LIFETIME, false, some td.id⟩
              let st2 : OIDCState :=
                { st1 with refresh_tokens_store :=
                    dictSet st1.refresh_tokens_store new_refresh rcd }
              .ok (⟨access, "Bearer", ACCESS_TOKEN_LIFETIME, some new_refresh,
                    String.intercalate (" ") td.scopes⟩, st2)
            else
              let unrevoked : RefreshRecord :=
                { td with revoked := false, expires := now + REFRESH_TOKEN_LIFETIME }
              let st2 : OIDCState :=
                { st1 with refresh_tokens_store :=
                    dictSet st1.refresh_tokens_store t unrevoked }
              .ok (⟨access, "Bearer", ACCESS_TOKEN_LIFETIME, some t,
                    String.intercalate (" ") td.scopes⟩, st2)

/-- TokenSession (src/mcp_server/models.py lines 17-33). -/
structure TokenSession where
  session_id : String
  user_id : String
  access_token : String
  access_token_expires_at : Nat
  refresh_token : String
  refresh_token_expires_at : Nat
  scopes : List String
  created_at : Nat
  last_refreshed_at : Option Nat
  refresh_count : Nat
deriving DecidableEq, Repr

/-- An error raised on the broker request path
(src/mcp_server/token_manager.py lines 31-38).  AuthenticationError carries
its message; AuthorizationError carries the missing_scopes and session
scopes that its message interpolates. -/
inductive BrokerError where
  | authentication (msg : String)
  | authorization (missing_scopes : List String) (has : List String)
deriving DecidableEq, Repr

/-- The _sessions dict of the TokenManager. -/
abbrev Sessions := List (String × TokenSession)

/-- TokenManager.create_session (token_manager.py lines 74-119).  The fresh
random value secrets.token_urlsafe(32) is passed in as session_id. -/
def create_session (session_id : String) (access_token : String)
    (refresh_token : String) (expires_in : Nat) (refresh_expires_in : Nat)
    (scopes : List String) (user_id : String) (now : Nat) : TokenSession :=
  { session_id := session_id, user_id := user_id,
    access_token := access_token,
    access_token_expires_at := now + expires_in,
    refresh_token := refresh_token,
    refresh_token_expires_at := now + refresh_expires_in,
    scopes := scopes, created_at := now,
    last_refreshed_at := none, refresh_count := 0 }

/-- TokenManager.ensure_valid_token (token_manager.py lines 143-186).  The
source reads the session and returns session.access_token from both the
still-valid branch and the already-expired branch (the latter only logs a
warning); it performs no writes, so the state component of the result is the
input map.  Both branches are kept to mirror the control flow of the source. -/
def ensure_valid_token (sessions : Sessions) (session_id : String)
    (now : Nat) : Except BrokerError String × Sessions :=
  match dictGet sessions session_id with
  | none =>
    (.error (.authentication ("Session not found: " ++ session_id.take 8 ++ "...")),
     sessions)
  | some s =>
    if now < s.access_token_expires_at then
      (.ok s.access_token, sessions)
    else
      (.ok s.access_token, sessions)

/-- TokenManager.check_authorization (token_manager.py lines 266-291). -/
def check_authorization (sessions : Sessions) (session_id : String)
    (required_scopes : List String) : Except BrokerError Unit :=
  match dictGet sessions session_id with
  | none =>
    .error (.authentication ("Session not found: " ++ session_id.take 8 ++ "..."))
  | some s =>
    let missing_scopes := required_scopes.filter (fun sc => !(s.scopes.contains sc))
    if missing_scopes.isEmpty then .ok ()
    else .error (.authorization missing_scopes s.scopes)

/-- The authorization prelude of CapitalPlanningAPIClient._make_request
(api_client.py lines 85-89): check_authorization runs first; only if it
passes is the access token read via ensure_valid_token. -/
def make_request_auth (sessions : Sessions) (session_id : String)
    (required_scopes : List String) (now : Nat) :
    Except BrokerError String × Sessions :=
  match check_authorization sessions session_id required_scopes with
  | .error e => (.error e, sessions)
  | .ok _ => ensure_valid_token sessions session_id now

/-- The json body of a 200 token-endpoint response as _refresh_tokens reads
it: token_data["access_token"], token_data.get("expires_in", 300),
"refresh_token" in token_data, token_data.get("refresh_expires_in", 30). -/
structure WireTokenData where
  access_token : String
  expires_in : Option Nat
  refresh_token : Option String
  refresh_expires_in : Option Nat
deriving DecidableEq, Repr

/-- The outcome of the HTTP POST inside TokenManager._refresh_tokens:
a 200 response with its parsed body, a non-200 response (status and body
text), or an httpx.RequestError. -/
inductive HttpOutcome where
  | success (td : WireTokenData)
  | failure (status : Nat) (body : String)
  | network (msg : String)
deriving DecidableEq, Repr

/-- TokenManager._refresh_tokens (token_manager.py lines 188-260), with the
HTTP exchange explicit as resp.  Returns the error message raised as
AuthenticationError (some msg) or none on success, together with the session
state after the call: the source mutates the session in place only on the
success path, after the status check. -/
def refresh_tokens_step (s : TokenSession) (resp : HttpOutcome) (now : Nat) :
    Option String × TokenSession :=
  match resp with
  | .failure status _ =>
    (some ("Token refresh failed: " ++ toString status ++ ". User may need to re-authenticate."), s)
  | .network msg =>
    (some ("Token refresh failed due to network error: " ++ msg), s)
  | .success td =>
    let s1 : TokenSession :=
      { s with access_token := td.access_token,
               access_token_expires_at := now + td.expires_in.getD 300 }
    let s2 : TokenSession :=
      match td.refresh_token with
      | some rt =>
        { s1 with refresh_token := rt,
                  refresh_token_expires_at := now + td.refresh_expires_in.getD 30 }
      | none => s1
    (none, { s2 with last_refreshed_at := some now,
                     refresh_count := s2.refresh_count + 1 })

/-- The loop body of TokenManager.refresh_all_sessions (token_manager.py
lines 327-353): per session, attempt a refresh; on success count it
refreshed, on an exception count it failed and append the error message.
responses gives the HTTP outcome of each session for this cycle.  Returns
(refreshed, failed, errors) and the updated session map. -/
def refresh_pass (responses : String → HttpOutcome) (now : Nat) :
    Sessions → (Nat × Nat × List String) × Sessions
  | [] => ((0, 0, []), [])
  | (sid, s) :: rest =>
    let step := refresh_tokens_step s (responses sid) now
    let tail := refresh_pass responses now rest
    match step.1 with
    | none =>
      ((tail.1.1 + 1, tail.1.2.1, tail.1.2.2), (sid, step.2) :: tail.2)
    | some m =>
      ((tail.1.1, tail.1.2.1 + 1,
        ("Session " ++ sid.take 8 ++ "... refresh failed: " ++ m) :: tail.1.2.2),
       (sid, step.2) :: tail.2)

/-- The per-cycle summary dict built by refresh_all_sessions. -/
structure RefreshStats where
  total_sessions : Nat
  refreshed : Nat
  failed : Nat
  errors : List String
deriving DecidableEq, Repr

/-- TokenManager.refresh_all_sessions (token_manager.py lines 304-355):
total_sessions is the session count before the pass; the pass visits every
session regardless of the outcomes of other sessions. -/
def refresh_all_sessions (sessions : Sessions)
    (responses : String → HttpOutcome) (now : Nat) :
    RefreshStats × Sessions :=
  let pass := refresh_pass responses now sessions
  (⟨sessions.length, pass.1.1, pass.1.2.1, pass.1.2.2⟩, pass.2)

/-- The broker view of an issuer TokenResponse body (models.py lines
14-19): serializing that pydantic model yields exactly the keys
access_token, token_type, expires_in, refresh_token and scope, so the
refresh_expires_in key is never present.  encode is the (injective) JWT
serialization mapping a payload to its token string. -/
def tokenResponseWire (encode : JWTPayload → String) (r : TokenResponse) :
    WireTokenData :=
  { access_token := encode r.access_token,
    expires_in := some r.expires_in,
    refresh_token := r.refresh_token.map encode,
    refresh_expires_in := none }

/-- Outcome test on Except: true exactly on ok. -/
def exceptIsOk {ε α : Type} : Except ε α → Bool
  | .ok _ => true
  | .error _ => false

/-- Projection: the refresh_token field of a successful token response. -/
def refreshOutcomeToken (r : Except HTTPError (TokenResponse × OIDCState)) :
    Option (Option JWTPayload) :=
  match r with
  | .ok p => some p.1.refresh_token
  | .error _ => none

/-- Projection: the issuer state after a successful grant. -/
def refreshOutcomeState (r : Except HTTPError (TokenResponse × OIDCState)) :
    Option OIDCState :=
  match r with
  | .ok p => some p.2
  | .error _ => none

/-- Projection: the HTTPError of a failed grant. -/
def refreshOutcomeError (r : Except HTTPError (TokenResponse × OIDCState)) :
    Option HTTPError :=
  match r with
  | .ok _ => none
  | .error e => some e

/-- A concrete issuer state holding one unused authorization code that
expires at time 160. -/
def c3St : OIDCState :=
  ⟨[("codeA", ⟨"alice", ["assets:read"], 160, false⟩)], []⟩

/-- A refresh token minted at time 100 (iat 100, exp 130). -/
def rotTok : JWTPayload := create_refresh_token ("alice") (["assets:read"]) 100

/-- Issuer state holding the live record of rotTok, as
handle_authorization_code_grant stores it at time 100. -/
def rotSt : OIDCState :=
  ⟨[], [(rotTok, ⟨"rid1", "alice", ["assets:read"], 130, false, none⟩)]⟩

/-- The issuer state after presenting rotTok for refresh at time 100 (the
same second it was minted): the replacement token is byte-identical to
rotTok, so storing its record overwrites - and un-revokes - the entry that
the handler had just marked revoked. -/
def rotSt2 : OIDCState :=
  ⟨[], [(rotTok, ⟨"rid2", "alice", ["assets:read"], 130, false, some ("rid1")⟩)]⟩

/-- A refresh token minted at time 100, used to probe expiry handling. -/
def expTok : JWTPayload := create_refresh_token ("bob") (["assets:read"]) 100

/-- Issuer state holding the live (never revoked) record of expTok, whose
expires field 130 mirrors the exp claim of the token. -/
def expSt : OIDCState :=
  ⟨[], [(expTok, ⟨"rid9", "bob", ["assets:read"], 130, false, none⟩)]⟩

/-- A concrete broker session whose only scope is assets:read and whose
access token expires at time 200. -/
def c5Sess : TokenSession :=
  ⟨"sidA", "limited_user", "atk", 200, "rtk", 230, ["assets:read"], 100, none, 0⟩

/-- A broker session store holding only c5Sess. -/
def c5Sessions : Sessions := [("sidA", c5Sess)]

/-- Three concrete broker sessions for a heartbeat cycle. -/
def hbS1 : TokenSession :=
  ⟨"s1", "u1", "a1", 310, "r1", 330, ["assets:read"], 290, none, 0⟩

def hbS2 : TokenSession :=
  ⟨"s2", "u2", "a2", 310, "r2", 330, ["assets:read"], 290, none, 0⟩

def hbS3 : TokenSession :=
  ⟨"s3", "u3", "a3", 310, "r3", 330, ["assets:read"], 290, none, 0⟩

/-- A broker session store with the three heartbeat sessions. -/
def hbSessions : Sessions := [("s1", hbS1), ("s2", hbS2), ("s3", hbS3)]

/-- Issuer outcomes for one heartbeat cycle: the rotation chain of session s2 was
revoked externally, so its refresh is rejected with a 401; the other two
sessions refresh normally. -/
def hbResponses : String → HttpOutcome := fun sid =>
  if sid = "s2" then .failure 401 ("Refresh token has been revoked")
  else .success ⟨"newA", some 10, some ("newR"), none⟩

/-- A concrete 200 response body carrying no new refresh token. -/
def c9Wire : WireTokenData := ⟨"accN", some 10, none, none⟩

/-- A concrete issuer TokenResponse as minted by the refresh grant at time
400: rotation enabled, so it carries a refresh token; its model has no
refresh_expires_in field. -/
def c10Resp : TokenResponse :=
  ⟨create_access_token ("alice") (["assets:read"]) 400, "Bearer",
    ACCESS_TOKEN_LIFETIME,
    some (create_refresh_token ("alice") (["assets:read"]) 400), "assets:read"⟩

/-- A stand-in JWT serialization for concrete evaluations. -/
def c10Encode : JWTPayload → String := fun p => p.sub ++ ":" ++ toString p.iat

theorem dictGet_dictSet_self {α β : Type} [DecidableEq α]
    (l : List (α × β)) (k : α) (v : β) :
    dictGet (dictSet l k v) k = some v := by
  induction l with
  | nil => simp [dictGet, dictSet]
  | cons hd tl ih =>
    obtain ⟨k0, v0⟩ := hd
    by_cases h : k = k0
    · simp [dictSet, dictGet, h]
    · simp [dictSet, dictGet, h, ih]

theorem dictGet_dictSet_ne {α β : Type} [DecidableEq α]
    (l : List (α × β)) (k a : α) (v : β) (h : a ≠ k) :
    dictGet (dictSet l k v) a = dictGet l a := by
  induction l with
  | nil => simp [dictGet, dictSet, h]
  | cons hd tl ih =>
    obtain ⟨k0, v0⟩ := hd
    by_cases h2 : k = k0
    · subst h2
      simp [dictSet, dictGet, h]
    · by_cases h3 : a = k0
      · simp [dictSet, dictGet, h2, h3]
      · simp [dictSet, dictGet, h2, h3, ih]

/-- C3: for every valid, unexpired authorization code, the first exchange
succeeds, returns a token pair and flips the used flag from false to true;
exchanging the same code a second time (at any later time) fails with the
invalid-grant already-used error, leaving the flag true: it flips exactly
once. -/
theorem authorization_code_single_use
    (st : OIDCState) (c : String) (cd : CodeRecord) (now1 now2 : Nat)
    (rid1 rid2 : String)
    (hfound : dictGet st.auth_codes c = some cd)
    (hunused : cd.used = false)
    (hfresh : ¬ cd.expires < now1) :
    ∃ resp st2,
      handle_authorization_code_grant st (some c) now1 rid1 = .ok (resp, st2) ∧
      resp.refresh_token.isSome = true ∧
      dictGet st2.auth_codes c = some { cd with used := true } ∧
      handle_authorization_code_grant st2 (some c) now2 rid2 =
        .error ⟨400, "Authorization code already used"⟩ := by
  have hafter : dictGet (dictSet st.auth_codes c { cd with used := true }) c
      = some { cd with used := true } := dictGet_dictSet_self _ _ _
  refine ⟨⟨create_access_token cd.sub cd.scopes now1, "Bearer",
      ACCESS_TOKEN_LIFETIME, some (create_refresh_token cd.sub cd.scopes now1),
      String.intercalate (" ") cd.scopes⟩,
    ⟨dictSet st.auth_codes c { cd with used := true },
      dictSet st.refresh_tokens_store (create_refresh_token cd.sub cd.scopes now1)
        ⟨rid1, cd.sub, cd.scopes, now1 + REFRESH_TOKEN_LIFETIME, false, none⟩⟩,
    ?_, rfl, hafter, ?_⟩
  · simp [handle_authorization_code_grant, hfound, hunused, hfresh]
  · simp [handle_authorization_code_grant, hafter]

/-- Witness: authorization_code_single_use applied at the concrete state
c3St, first exchange at time 120, second at time 200. -/
theorem authorization_code_single_use_witness :
    (dictGet c3St.auth_codes ("codeA")
        = some ⟨"alice", ["assets:read"], 160, false⟩
      ∧ (⟨"alice", ["assets:read"], 160, false⟩ : CodeRecord).used = false
      ∧ ¬ ((160 : Nat) < 120))
    ∧ (∃ resp st2,
        handle_authorization_code_grant c3St (some ("codeA")) 120 ("r1")
          = .ok (resp, st2) ∧
        resp.refresh_token.isSome = true ∧
        dictGet st2.auth_codes ("codeA")
          = some ⟨"alice", ["assets:read"], 160, true⟩ ∧
        handle_authorization_code_grant st2 (some ("codeA")) 200 ("r2")
          = .error ⟨400, "Authorization code already used"⟩) := by
  constructor
  · exact ⟨by decide, rfl, by decide⟩
  · exact authorization_code_single_use c3St ("codeA")
      ⟨"alice", ["assets:read"], 160, false⟩ 120 200 ("r1") ("r2")
      (by decide) rfl (by decide)

/-- Helper: the success path of handle_refresh_token_grant with rotation
enabled, computed in closed form from the guards it passes. -/
theorem refresh_grant_ok
    (st : OIDCState) (tok : JWTPayload) (td : RefreshRecord) (now : Nat)
    (nid : String)
    (hfound : dictGet st.refresh_tokens_store tok = some td)
    (hlive : td.revoked = false)
    (hfresh : ¬ td.expires < now)
    (hver : ¬ tok.exp + JWT_LEEWAY < now)
    (htype : tok.token_type = some ("refresh")) :
    handle_refresh_token_grant st (some tok) now nid true =
      .ok (⟨create_access_token td.sub td.scopes now, "Bearer",
            ACCESS_TOKEN_LIFETIME,
            some (create_refresh_token td.sub td.scopes now),
            String.intercalate (" ") td.scopes⟩,
          ⟨st.auth_codes,
            dictSet (dictSet st.refresh_tokens_store tok { td with revoked := true })
              (create_refresh_token td.sub td.scopes now)
              ⟨nid, td.sub, td.scopes, now + REFRESH_TOKEN_LIFETIME, false,
                some td.id⟩⟩) := by
  simp [handle_refresh_token_grant, verify_token, hver, htype, hfound, hlive, hfresh]

/-- C1 (amended): a successful refresh-token exchange with rotation enabled,
performed at a second other than the iat claim of the presented token, returns a
refresh token distinct from the presented one, marks the record of the presented token revoked, stores a new record whose parent is the id of the presented record, and afterwards the presented token is rejected as revoked while the
returned token refreshes successfully.  (At the very second of the iat of the presented
token the mint is byte-identical to the presented token and overwrites
its record, so the restriction is necessary: see the counterexample.) -/
theorem refresh_rotation
    (st : OIDCState) (tok : JWTPayload) (td : RefreshRecord) (now : Nat)
    (nid nid2 nid3 : String)
    (hfound : dictGet st.refresh_tokens_store tok = some td)
    (hlive : td.revoked = false)
    (hfresh : ¬ td.expires < now)
    (hver : ¬ tok.exp + JWT_LEEWAY < now)
    (htype : tok.token_type = some ("refresh"))
    (hiat : tok.iat ≠ now) :
    ∃ resp st2,
      handle_refresh_token_grant st (some tok) now nid true = .ok (resp, st2) ∧
      resp.refresh_token = some (create_refresh_token td.sub td.scopes now) ∧
      create_refresh_token td.sub td.scopes now ≠ tok ∧
      dictGet st2.refresh_tokens_store tok = some { td with revoked := true } ∧
      dictGet st2.refresh_tokens_store (create_refresh_token td.sub td.scopes now)
        = some ⟨nid, td.sub, td.scopes, now + REFRESH_TOKEN_LIFETIME, false, some td.id⟩ ∧
      handle_refresh_token_grant st2 (some tok) now nid2 true
        = .error ⟨401, "Refresh token has been revoked"⟩ ∧
      ∃ resp2 st3,
        handle_refresh_token_grant st2
          (some (create_refresh_token td.sub td.scopes now)) now nid3 true
          = .ok (resp2, st3) := by
  have hne : create_refresh_token td.sub td.scopes now ≠ tok := by
    intro h
    apply hiat
    rw [← h]
    rfl
  refine ⟨⟨create_access_token td.sub td.scopes now, "Bearer",
      ACCESS_TOKEN_LIFETIME, some (create_refresh_token td.sub td.scopes now),
      String.intercalate (" ") td.scopes⟩,
    ⟨st.auth_codes,
      dictSet (dictSet st.refresh_tokens_store tok { td with revoked := true })
        (create_refresh_token td.sub td.scopes now)
        ⟨nid, td.sub, td.scopes, now + REFRESH_TOKEN_LIFETIME, false, some td.id⟩⟩,
    refresh_grant_ok st tok td now nid hfound hlive hfresh hver htype,
    rfl, hne, ?_, ?_, ?_, ?_⟩
  · exact (dictGet_dictSet_ne _ _ _ _ hne.symm).trans (dictGet_dictSet_self _ _ _)
  · exact dictGet_dictSet_self _ _ _
  · have h4 : dictGet
        (dictSet (dictSet st.refresh_tokens_store tok { td with revoked := true })
          (create_refresh_token td.sub td.scopes now)
          ⟨nid, td.sub, td.scopes, now + REFRESH_TOKEN_LIFETIME, false, some td.id⟩) tok
        = some { td with revoked := true } :=
      (dictGet_dictSet_ne _ _ _ _ hne.symm).trans (dictGet_dictSet_self _ _ _)
    simp [handle_refresh_token_grant, verify_token, hver, htype, h4]
  · have h5 : dictGet
        (dictSet (dictSet st.refresh_tokens_store tok { td with revoked := true })
          (create_refresh_token td.sub td.scopes now)
          ⟨nid, td.sub, td.scopes, now + REFRESH_TOKEN_LIFETIME, false, some td.id⟩)
        (create_refresh_token td.sub td.scopes now)
        = some ⟨nid, td.sub, td.scopes, now + REFRESH_TOKEN_LIFETIME, false, some td.id⟩ :=
      dictGet_dictSet_self _ _ _
    exact ⟨_, _, refresh_grant_ok _ _ _ now nid3 h5 rfl
      (Nat.not_lt.mpr (Nat.le_add_right now REFRESH_TOKEN_LIFETIME))
      (Nat.not_lt.mpr ((Nat.le_add_right now REFRESH_TOKEN_LIFETIME).trans
        (Nat.le_add_right _ JWT_LEEWAY)))
      rfl⟩

/-- Witness: refresh_rotation applied at the concrete state rotSt (token
minted at 100, record expires 130) with the exchange at time 105. -/
theorem refresh_rotation_witness :
    (dictGet rotSt.refresh_tokens_store rotTok
        = some ⟨"rid1", "alice", ["assets:read"], 130, false, none⟩
      ∧ ¬ ((130 : Nat) < 105)
      ∧ ¬ (rotTok.exp + JWT_LEEWAY < 105)
      ∧ rotTok.token_type = some ("refresh")
      ∧ rotTok.iat ≠ 105)
    ∧ (∃ resp st2,
        handle_refresh_token_grant rotSt (some rotTok) 105 ("r2") true
          = .ok (resp, st2) ∧
        resp.refresh_token = some (create_refresh_token ("alice") (["assets:read"]) 105) ∧
        create_refresh_token ("alice") (["assets:read"]) 105 ≠ rotTok ∧
        dictGet st2.refresh_tokens_store rotTok
          = some ⟨"rid1", "alice", ["assets:read"], 130, true, none⟩ ∧
        dictGet st2.refresh_tokens_store
            (create_refresh_token ("alice") (["assets:read"]) 105)
          = some ⟨"r2", "alice", ["assets:read"], 105 + REFRESH_TOKEN_LIFETIME,
              false, some ("rid1")⟩ ∧
        handle_refresh_token_grant st2 (some rotTok) 105 ("r3") true
          = .error ⟨401, "Refresh token has been revoked"⟩ ∧
        ∃ resp2 st3,
          handle_refresh_token_grant st2
            (some (create_refresh_token ("alice") (["assets:read"]) 105)) 105 ("r4") true
            = .ok (resp2, st3)) := by
  constructor
  · exact ⟨by decide, by decide, by decide, rfl, by decide⟩
  · exact refresh_rotation rotSt rotTok
      ⟨"rid1", "alice", ["assets:read"], 130, false, none⟩
      105 ("r2") ("r3") ("r4") (by decide) rfl (by decide) (by decide) rfl (by decide)

/-- Counterexample to C1 as stated: presenting rotTok for refresh at time
100, the very second it was minted, succeeds - yet the returned refresh
token is byte-identical to the presented one, the record of the presented token
ends up NOT revoked (the replacement record overwrote the entry just marked
revoked), and presenting the same token again still succeeds. -/
theorem refresh_rotation_cex :
    refreshOutcomeToken (handle_refresh_token_grant rotSt (some rotTok) 100 ("rid2") true)
      = some (some rotTok)
    ∧ refreshOutcomeState (handle_refresh_token_grant rotSt (some rotTok) 100 ("rid2") true)
      = some rotSt2
    ∧ (dictGet rotSt2.refresh_tokens_store rotTok).map RefreshRecord.revoked = some false
    ∧ exceptIsOk (handle_refresh_token_grant rotSt2 (some rotTok) 100 ("rid3") true)
      = true := by
  decide

/-- C2 (amended): presenting a live refresh token twice at the same time:
the first presentation succeeds and returns a new access/refresh pair, and -
provided that time is not the very second the token was minted (its iat), so
that the rotated-in replacement differs from it - the second presentation
fails with the reuse error "Refresh token has been revoked". -/
theorem refresh_reuse_detected
    (st : OIDCState) (tok : JWTPayload) (td : RefreshRecord) (now : Nat)
    (nid1 nid2 : String)
    (hfound : dictGet st.refresh_tokens_store tok = some td)
    (hlive : td.revoked = false)
    (hfresh : ¬ td.expires < now)
    (hver : ¬ tok.exp + JWT_LEEWAY < now)
    (htype : tok.token_type = some ("refresh"))
    (hiat : tok.iat ≠ now) :
    ∃ resp st2,
      handle_refresh_token_grant st (some tok) now nid1 true = .ok (resp, st2) ∧
      resp.access_token = create_access_token td.sub td.scopes now ∧
      resp.refresh_token.isSome = true ∧
      handle_refresh_token_grant st2 (some tok) now nid2 true
        = .error ⟨401, "Refresh token has been revoked"⟩ := by
  have hne : create_refresh_token td.sub td.scopes now ≠ tok := by
    intro h
    apply hiat
    rw [← h]
    rfl
  refine ⟨_, _, refresh_grant_ok st tok td now nid1 hfound hlive hfresh hver htype,
    rfl, rfl, ?_⟩
  have h4 : dictGet
      (dictSet (dictSet st.refresh_tokens_store tok { td with revoked := true })
        (create_refresh_token td.sub td.scopes now)
        ⟨nid1, td.sub, td.scopes, now + REFRESH_TOKEN_LIFETIME, false, some td.id⟩) tok
      = some { td with revoked := true } :=
    (dictGet_dictSet_ne _ _ _ _ hne.symm).trans (dictGet_dictSet_self _ _ _)
  simp [handle_refresh_token_grant, verify_token, hver, htype, h4]

/-- Witness: refresh_reuse_detected applied at rotSt with both
presentations at time 105. -/
theorem refresh_reuse_detected_witness :
    (dictGet rotSt.refresh_tokens_store rotTok
        = some ⟨"rid1", "alice", ["assets:read"], 130, false, none⟩
      ∧ ¬ ((130 : Nat) < 105)
      ∧ ¬ (rotTok.exp + JWT_LEEWAY < 105)
      ∧ rotTok.token_type = some ("refresh")
      ∧ rotTok.iat ≠ 105)
    ∧ (∃ resp st2,
        handle_refresh_token_grant rotSt (some rotTok) 105 ("n1") true
          = .ok (resp, st2) ∧
        resp.access_token = create_access_token ("alice") (["assets:read"]) 105 ∧
        resp.refresh_token.isSome = true ∧
        handle_refresh_token_grant st2 (some rotTok) 105 ("n2") true
          = .error ⟨401, "Refresh token has been revoked"⟩) := by
  constructor
  · exact ⟨by decide, by decide, by decide, rfl, by decide⟩
  · exact refresh_reuse_detected rotSt rotTok
      ⟨"rid1", "alice", ["assets:read"], 130, false, none⟩
      105 ("n1") ("n2") (by decide) rfl (by decide) (by decide) rfl (by decide)

/-- Counterexample to C2 as stated: at time 100 (the second rotTok was
minted) the first presentation succeeds, but the second presentation of the
very same token does not fail with the reuse error - it succeeds again,
because the rotation overwrote the revoked record with the byte-identical
fresh record of the replacement token. -/
theorem refresh_reuse_detected_cex :
    exceptIsOk (handle_refresh_token_grant rotSt (some rotTok) 100 ("rid2") true) = true
    ∧ refreshOutcomeState (handle_refresh_token_grant rotSt (some rotTok) 100 ("rid2") true)
      = some rotSt2
    ∧ refreshOutcomeError (handle_refresh_token_grant rotSt2 (some rotTok) 100 ("m2") true)
      = none := by
  decide

/-- C4 (amended): a refresh token whose record is known and unrevoked but
expired fails with the distinct expired-token error, provided the
presentation happens within the JWT verification leeway (now is at most the
exp claim of the token + 10s); beyond the leeway jwt verification rejects the
token first with the invalid-token error (see the counterexample). -/
theorem refresh_expired_error
    (st : OIDCState) (tok : JWTPayload) (td : RefreshRecord) (now : Nat)
    (nid : String) (rotate : Bool)
    (hfound : dictGet st.refresh_tokens_store tok = some td)
    (hlive : td.revoked = false)
    (hexp : td.expires < now)
    (hver : ¬ tok.exp + JWT_LEEWAY < now)
    (htype : tok.token_type = some ("refresh")) :
    handle_refresh_token_grant st (some tok) now nid rotate
      = .error ⟨401, "Refresh token expired"⟩
    ∧ (⟨401, "Refresh token expired"⟩ : HTTPError) ≠ ⟨401, "Unknown refresh token"⟩
    ∧ (⟨401, "Refresh token expired"⟩ : HTTPError)
        ≠ ⟨401, "Refresh token has been revoked"⟩ := by
  refine ⟨?_, by decide, by decide⟩
  simp [handle_refresh_token_grant, verify_token, hver, htype, hfound, hlive, hexp]

/-- Witness: refresh_expired_error at expSt (record expires 130) presented
at time 135, inside the 10s leeway of the exp claim 130. -/
theorem refresh_expired_error_witness :
    (dictGet expSt.refresh_tokens_store expTok
        = some ⟨"rid9", "bob", ["assets:read"], 130, false, none⟩
      ∧ ((130 : Nat) < 135)
      ∧ ¬ (expTok.exp + JWT_LEEWAY < 135)
      ∧ expTok.token_type = some ("refresh"))
    ∧ (handle_refresh_token_grant expSt (some expTok) 135 ("w9") true
        = .error ⟨401, "Refresh token expired"⟩
      ∧ (⟨401, "Refresh token expired"⟩ : HTTPError) ≠ ⟨401, "Unknown refresh token"⟩
      ∧ (⟨401, "Refresh token expired"⟩ : HTTPError)
          ≠ ⟨401, "Refresh token has been revoked"⟩) := by
  constructor
  · exact ⟨by decide, by decide, by decide, rfl⟩
  · exact refresh_expired_error expSt expTok
      ⟨"rid9", "bob", ["assets:read"], 130, false, none⟩
      135 ("w9") true (by decide) rfl (by decide) (by decide) rfl

/-- Counterexample to C4 as stated: at time 150 the record of expTok is known,
unrevoked and long expired (130 < 150), yet the grant fails with the
invalid-token error, not the expired error: 150 exceeds exp + leeway
(130 + 10), so jwt verification rejects the token before the expiry check of the store
 is reached. -/
theorem refresh_expired_error_cex :
    (dictGet expSt.refresh_tokens_store expTok).map RefreshRecord.revoked = some false
    ∧ (dictGet expSt.refresh_tokens_store expTok).map RefreshRecord.expires = some 130
    ∧ refreshOutcomeError (handle_refresh_token_grant expSt (some expTok) 150 ("x9") true)
      = some ⟨401, "Invalid refresh token"⟩
    ∧ (⟨401, "Invalid refresh token"⟩ : HTTPError) ≠ ⟨401, "Refresh token expired"⟩ := by
  decide

/-- C5: on the request path the scope check runs before the token read.
When the session exists but its scopes are not a superset of the required
scopes, _make_request fails with AuthorizationError carrying exactly the
missing scopes (the required scopes absent from the session), the session
store untouched and no token read; when the session does not exist it fails
with AuthenticationError. -/
theorem scope_check_before_token_read
    (sessions : Sessions) (sid : String) (required : List String) (now : Nat) :
    (∀ s, dictGet sessions sid = some s →
      required.filter (fun sc => !(s.scopes.contains sc)) ≠ [] →
      make_request_auth sessions sid required now
        = (.error (.authorization
              (required.filter (fun sc => !(s.scopes.contains sc))) s.scopes),
            sessions))
    ∧ (dictGet sessions sid = none →
      make_request_auth sessions sid required now
        = (.error (.authentication ("Session not found: " ++ sid.take 8 ++ "...")),
            sessions)) := by
  constructor
  · intro s hs hmiss
    simp at hmiss
    have hcond : ¬ ∀ a ∈ required, a ∈ s.scopes := by
      push_neg
      exact hmiss
    simp [make_request_auth, check_authorization, hs, List.isEmpty_iff, hcond]
  · intro hnone
    simp [make_request_auth, check_authorization, hnone]

/-- C6: reading the current access token on the request path returns the
stored access token verbatim - including when it is already expired (both
branches of the source return session.access_token; the expired branch only
logs a warning) - and leaves the session store unchanged: ensure_valid_token
never refreshes and never mutates any session field. -/
theorem token_read_verbatim_no_mutation
    (sessions : Sessions) (sid : String) (s : TokenSession) (now : Nat)
    (hs : dictGet sessions sid = some s) :
    ensure_valid_token sessions sid now = (.ok s.access_token, sessions) := by
  simp [ensure_valid_token, hs, ite_self]

/-- Witness: scope_check_before_token_read at the concrete store
c5Sessions; the session lacks investments:write, and a lookup of an absent
session id fails with AuthenticationError. -/
theorem scope_check_before_token_read_witness :
    (dictGet c5Sessions ("sidA") = some c5Sess
      ∧ (["investments:write"].filter (fun sc => !(c5Sess.scopes.contains sc)) ≠ [])
      ∧ dictGet c5Sessions ("nosuch") = none)
    ∧ make_request_auth c5Sessions ("sidA") (["investments:write"]) 150
      = (.error (.authorization
            ((["investments:write"]).filter (fun sc => !(c5Sess.scopes.contains sc)))
            c5Sess.scopes), c5Sessions)
    ∧ make_request_auth c5Sessions ("nosuch") (["assets:read"]) 150
      = (.error (.authentication
            ("Session not found: " ++ ("nosuch").take 8 ++ "...")), c5Sessions) := by
  refine ⟨⟨by decide, by decide, by decide⟩, ?_, ?_⟩
  · exact (scope_check_before_token_read c5Sessions ("sidA")
      (["investments:write"]) 150).1 c5Sess (by decide) (by decide)
  · exact (scope_check_before_token_read c5Sessions ("nosuch")
      (["assets:read"]) 150).2 (by decide)

/-- Witness: token_read_verbatim_no_mutation at c5Sessions read at time 500,
when the stored access token has been expired for 300 seconds: the token is
still returned verbatim and the store is unchanged. -/
theorem token_read_verbatim_no_mutation_witness :
    (dictGet c5Sessions ("sidA") = some c5Sess
      ∧ c5Sess.access_token_expires_at < 500)
    ∧ ensure_valid_token c5Sessions ("sidA") 500
      = (.ok c5Sess.access_token, c5Sessions) := by
  exact ⟨⟨by decide, by decide⟩,
    token_read_verbatim_no_mutation c5Sessions ("sidA") c5Sess 500 (by decide)⟩

/-- Helper: the per-cycle pass of refresh_all_sessions attempts every
session: refreshed + failed equals the number of sessions, errors holds one
entry per failure, and the resulting entry of each session is the outcome of its
own refresh attempt alone. -/
theorem refresh_pass_spec (responses : String → HttpOutcome) (now : Nat)
    (l : Sessions) :
    ((refresh_pass responses now l).1.1 + (refresh_pass responses now l).1.2.1
      = l.length)
    ∧ ((refresh_pass responses now l).1.2.2.length
      = (refresh_pass responses now l).1.2.1)
    ∧ ∀ sid, dictGet (refresh_pass responses now l).2 sid
        = (dictGet l sid).map
            (fun s => (refresh_tokens_step s (responses sid) now).2) := by
  induction l with
  | nil =>
    refine ⟨rfl, rfl, ?_⟩
    intro sid
    simp [refresh_pass, dictGet]
  | cons hd tl ih =>
    obtain ⟨k, s⟩ := hd
    obtain ⟨ih1, ih2, ih3⟩ := ih
    rcases h : (refresh_tokens_step s (responses k) now).1 with _ | m
    · refine ⟨?_, ?_, ?_⟩
      · simp only [refresh_pass, h, List.length_cons]
        omega
      · simp only [refresh_pass, h]
        exact ih2
      · intro sid
        by_cases hk : sid = k
        · subst hk
          simp [refresh_pass, h, dictGet]
        · simp [refresh_pass, h, dictGet, hk, ih3 sid]
    · refine ⟨?_, ?_, ?_⟩
      · simp only [refresh_pass, h, List.length_cons]
        omega
      · simp only [refresh_pass, h, List.length_cons]
        omega
      · intro sid
        by_cases hk : sid = k
        · subst hk
          simp [refresh_pass, h, dictGet]
        · simp [refresh_pass, h, dictGet, hk, ih3 sid]

/-- C7: for every heartbeat cycle over any set of sessions, the summary
satisfies refreshed + failed = total_sessions with exactly one error entry
per failed session, and the resulting state of every session is determined by
its own issuer response alone - so a refresh failure of one session cannot prevent
the remaining sessions from being attempted and refreshed. -/
theorem heartbeat_cycle_isolation
    (sessions : Sessions) (responses : String → HttpOutcome) (now : Nat) :
    ((refresh_all_sessions sessions responses now).1.refreshed
        + (refresh_all_sessions sessions responses now).1.failed
      = (refresh_all_sessions sessions responses now).1.total_sessions)
    ∧ ((refresh_all_sessions sessions responses now).1.errors.length
      = (refresh_all_sessions sessions responses now).1.failed)
    ∧ (∀ sid s, dictGet sessions sid = some s →
        dictGet (refresh_all_sessions sessions responses now).2 sid
          = some (refresh_tokens_step s (responses sid) now).2) := by
  obtain ⟨h1, h2, h3⟩ := refresh_pass_spec responses now sessions
  refine ⟨h1, h2, ?_⟩
  intro sid s hs
  have h4 := h3 sid
  simp only [refresh_all_sessions]
  rw [h4, hs]
  rfl

/-- Witness: heartbeat_cycle_isolation on the three concrete sessions of
hbSessions, where the chain of session s2 is revoked: the cycle reports total=3,
refreshed=2, failed=1, and sessions s1 and s3 are still refreshed. -/
theorem heartbeat_cycle_isolation_witness :
    ((refresh_all_sessions hbSessions hbResponses 300).1.total_sessions = 3
      ∧ (refresh_all_sessions hbSessions hbResponses 300).1.refreshed = 2
      ∧ (refresh_all_sessions hbSessions hbResponses 300).1.failed = 1
      ∧ (refresh_all_sessions hbSessions hbResponses 300).1.errors.length = 1
      ∧ dictGet hbSessions ("s1") = some hbS1
      ∧ dictGet hbSessions ("s3") = some hbS3)
    ∧ dictGet (refresh_all_sessions hbSessions hbResponses 300).2 ("s1")
      = some (refresh_tokens_step hbS1 (hbResponses ("s1")) 300).2
    ∧ dictGet (refresh_all_sessions hbSessions hbResponses 300).2 ("s3")
      = some (refresh_tokens_step hbS3 (hbResponses ("s3")) 300).2 := by
  refine ⟨⟨by decide, by decide, by decide, by decide, by decide, by decide⟩, ?_, ?_⟩
  · exact (heartbeat_cycle_isolation hbSessions hbResponses 300).2.2
      ("s1") hbS1 (by decide)
  · exact (heartbeat_cycle_isolation hbSessions hbResponses 300).2.2
      ("s3") hbS3 (by decide)

/-- C8: a failed refresh attempt - the issuer answered with a non-200
status, or a network error occurred - raises an error and leaves every field
of the session unchanged: session fields are mutated only by a successful
refresh or at creation. -/
theorem failed_refresh_leaves_session_unchanged
    (s : TokenSession) (resp : HttpOutcome) (now : Nat)
    (h : (∃ status body, resp = .failure status body)
        ∨ (∃ msg, resp = .network msg)) :
    (refresh_tokens_step s resp now).2 = s
    ∧ (refresh_tokens_step s resp now).1.isSome = true := by
  rcases h with ⟨status, body, rfl⟩ | ⟨msg, rfl⟩ <;> exact ⟨rfl, rfl⟩

/-- Witness: failed_refresh_leaves_session_unchanged at c5Sess for a 401
issuer response. -/
theorem failed_refresh_leaves_session_unchanged_witness :
    ((∃ status body,
        (HttpOutcome.failure 401 ("revoked") : HttpOutcome) = .failure status body)
      ∨ (∃ msg, (HttpOutcome.failure 401 ("revoked") : HttpOutcome) = .network msg))
    ∧ (refresh_tokens_step c5Sess (.failure 401 ("revoked")) 500).2 = c5Sess
    ∧ (refresh_tokens_step c5Sess (.failure 401 ("revoked")) 500).1.isSome = true := by
  refine ⟨Or.inl ⟨401, ("revoked"), rfl⟩, ?_, ?_⟩
  · exact (failed_refresh_leaves_session_unchanged c5Sess
      (.failure 401 ("revoked")) 500 (Or.inl ⟨401, ("revoked"), rfl⟩)).1
  · exact (failed_refresh_leaves_session_unchanged c5Sess
      (.failure 401 ("revoked")) 500 (Or.inl ⟨401, ("revoked"), rfl⟩)).2

/-- C9: a successful refresh overwrites the access token and its expiry,
increments refresh_count by exactly one, sets last_refreshed_at to now;
when the response carries no new refresh token, the stored refresh token and
its expiry are left untouched; and no refresh outcome ever decreases
refresh_count. -/
theorem successful_refresh_updates
    (s : TokenSession) (td : WireTokenData) (now : Nat) :
    ((refresh_tokens_step s (.success td) now).2.access_token = td.access_token)
    ∧ ((refresh_tokens_step s (.success td) now).2.access_token_expires_at
        = now + td.expires_in.getD 300)
    ∧ ((refresh_tokens_step s (.success td) now).2.refresh_count
        = s.refresh_count + 1)
    ∧ ((refresh_tokens_step s (.success td) now).2.last_refreshed_at = some now)
    ∧ (td.refresh_token = none →
        (refresh_tokens_step s (.success td) now).2.refresh_token = s.refresh_token
        ∧ (refresh_tokens_step s (.success td) now).2.refresh_token_expires_at
          = s.refresh_token_expires_at)
    ∧ (∀ resp, s.refresh_count ≤ (refresh_tokens_step s resp now).2.refresh_count) := by
  refine ⟨?_, ?_, ?_, ?_, ?_, ?_⟩
  · rcases h : td.refresh_token with _ | rt <;> simp [refresh_tokens_step, h]
  · rcases h : td.refresh_token with _ | rt <;> simp [refresh_tokens_step, h]
  · rcases h : td.refresh_token with _ | rt <;> simp [refresh_tokens_step, h]
  · rcases h : td.refresh_token with _ | rt <;> simp [refresh_tokens_step, h]
  · intro hnone
    simp [refresh_tokens_step, hnone]
  · intro resp
    cases resp with
    | success td2 =>
      rcases h : td2.refresh_token with _ | rt <;> simp [refresh_tokens_step, h]
    | failure status body => simp [refresh_tokens_step]
    | network msg => simp [refresh_tokens_step]

/-- Witness: successful_refresh_updates at c5Sess with the concrete 200
body c9Wire, which carries no refresh token: the access token is replaced,
refresh_count goes 0 to 1, and the stored refresh token and expiry stay. -/
theorem successful_refresh_updates_witness :
    c9Wire.refresh_token = none
    ∧ ((refresh_tokens_step c5Sess (.success c9Wire) 500).2.access_token
        = c9Wire.access_token)
    ∧ ((refresh_tokens_step c5Sess (.success c9Wire) 500).2.refresh_count
        = c5Sess.refresh_count + 1)
    ∧ ((refresh_tokens_step c5Sess (.success c9Wire) 500).2.refresh_token
        = c5Sess.refresh_token
      ∧ (refresh_tokens_step c5Sess (.success c9Wire) 500).2.refresh_token_expires_at
        = c5Sess.refresh_token_expires_at) := by
  refine ⟨rfl, ?_, ?_, ?_⟩
  · exact (successful_refresh_updates c5Sess c9Wire 500).1
  · exact (successful_refresh_updates c5Sess c9Wire 500).2.2.1
  · exact (successful_refresh_updates c5Sess c9Wire 500).2.2.2.2.1 rfl

/-- C10: whenever a successful refresh response that originates from the
TokenResponse model of the issuer carries a new refresh token, the broker sets
refresh_token_expires_at of the session to now + 30 - the hardcoded fallback
for the refresh_expires_in key, which that model never emits - regardless of
the refresh_expires_in supplied when the session was created. -/
theorem refresh_expiry_hardcoded_fallback
    (encode : JWTPayload → String) (r : TokenResponse) (p : JWTPayload)
    (sid a_tok r_tok : String) (expires_in refresh_expires_in : Nat)
    (scopes : List String) (uid : String) (created_now now : Nat)
    (hr : r.refresh_token = some p) :
    ((refresh_tokens_step
        (create_session sid a_tok r_tok expires_in refresh_expires_in scopes uid created_now)
        (.success (tokenResponseWire encode r)) now).2.refresh_token_expires_at
      = now + 30)
    ∧ ((refresh_tokens_step
        (create_session sid a_tok r_tok expires_in refresh_expires_in scopes uid created_now)
        (.success (tokenResponseWire encode r)) now).2.refresh_token
      = encode p) := by
  constructor <;> simp [refresh_tokens_step, tokenResponseWire, hr, create_session]

/-- Witness: refresh_expiry_hardcoded_fallback for a session created with
refresh_expires_in = 3600 and refreshed at time 400 with the concrete
rotating response c10Resp: the new expiry is 430 = 400 + 30, ignoring the
creation-time 3600. -/
theorem refresh_expiry_hardcoded_fallback_witness :
    c10Resp.refresh_token
      = some (create_refresh_token ("alice") (["assets:read"]) 400)
    ∧ ((refresh_tokens_step
        (create_session ("sidZ") ("a0") ("r0") 10 3600 (["assets:read"]) ("alice") 100)
        (.success (tokenResponseWire c10Encode c10Resp)) 400).2.refresh_token_expires_at
      = 400 + 30)
    ∧ ((refresh_tokens_step
        (create_session ("sidZ") ("a0") ("r0") 10 3600 (["assets:read"]) ("alice") 100)
        (.success (tokenResponseWire c10Encode c10Resp)) 400).2.refresh_token
      = c10Encode (create_refresh_token ("alice") (["assets:read"]) 400)) := by
  refine ⟨rfl, ?_, ?_⟩
  · exact (refresh_expiry_hardcoded_fallback c10Encode c10Resp
      (create_refresh_token ("alice") (["assets:read"]) 400)
      ("sidZ") ("a0") ("r0") 10 3600 (["assets:read"]) ("alice") 100 400 rfl).1
  · exact (refresh_expiry_hardcoded_fallback c10Encode c10Resp
      (create_refresh_token ("alice") (["assets:read"]) 400)
      ("sidZ") ("a0") ("r0") 10 3600 (["assets:read"]) ("alice") 100 400 rfl).2
